import Mathlib

/-!
Verification development for the JASSS user-data identity service
(`src/dynamo.ts`).  The DynamoDB table is modelled as a list of items,
an item being an association list of string attributes (DynamoDB is
schema-less; all attribute values written by this service are strings).
External collaborators (bcryptjs, email-validator, Date, nodemailer,
crypto randomness) are modelled as deterministic parameters or
functions, documented at each definition.
-/

namespace UserData

/-- HTTP-style error thrown by the service (`ErrorWithStatus`). -/
structure Err where
  message : String
  statusCode : Nat
deriving DecidableEq, Repr

/-- A DynamoDB item: association list from attribute name to string value.
An absent key models an absent (`undefined`) attribute. -/
abbrev Item := List (String × String)

/-- The user-data table: a list of items (keyed by the `user_id` attribute). -/
abbrev Store := List Item

/-- Attribute lookup, first binding wins (`item.attr` in JS, `none` = `undefined`). -/
def getAttr : Item → String → Option String
  | [], _ => none
  | (k1, v) :: rest, k => if k1 = k then some v else getAttr rest k

/-- JS truthiness of a possibly-absent string attribute:
`undefined` and `""` are falsy, any other string truthy. -/
def truthy : Option String → Bool
  | none => false
  | some s => !(s = "")

/-- Template interpolation of a possibly-absent value (JS renders
`undefined` as the string "undefined"). -/
def showAttr : Option String → String
  | none => "undefined"
  | some s => s

/-- The item's primary key attribute. -/
def uidOf (it : Item) : Option String := getAttr it "user_id"

/-- Modelled from the spec: the Credential Hasher (`bcrypt.hash`) is a
one-way hash; modelled as a deterministic injective function producing a
non-empty digest. -/
def hashFn (s : String) : String := String.mk ('#' :: s.data)

/-- Modelled from the spec: `bcrypt.compare(secret, digest)` verifies a
secret against a digest; with the deterministic hasher model this is a
digest equality check. -/
def bcryptVerify (secret digest : String) : Bool := hashFn secret = digest

/-- `bcrypt.compare` against a possibly-absent digest: bcryptjs rejects
(`Illegal arguments`) when the digest is `undefined`, which surfaces as a
500 at the transport boundary. -/
def illegalArgsErr : Err := ⟨"Illegal arguments: string, undefined", 500⟩

/-- JS `String.prototype.split` with a one-character separator, on the
underlying character list. -/
def splitChars (sep : Char) : List Char → List (List Char)
  | [] => [[]]
  | c :: rest =>
    match splitChars sep rest with
    | [] => [[c]]
    | g :: gs => if c = sep then [] :: g :: gs else (c :: g) :: gs

/-- JS `s.split(sep)` for a one-character separator. -/
def jsSplit (sep : Char) (s : String) : List String :=
  (splitChars sep s.data).map String.mk

/-- JS whitespace for `trim`. -/
def isSpaceChar (c : Char) : Bool := c = ' ' || c = '\t' || c = '\n' || c = '\r'

/-- JS `s.trim()`. -/
def jsTrim (s : String) : String :=
  String.mk (((s.data.dropWhile isSpaceChar).reverse.dropWhile isSpaceChar).reverse)

/-- JS `s.toLowerCase()` (ASCII, which covers every configured field name). -/
def jsToLower (s : String) : String := String.mk (s.data.map Char.toLower)

/-- Modelled from the spec: `EmailValidator.validate` (external
email-validator library): syntactic check — exactly one `@`, non-empty
local part and domain, domain contains a dot, no spaces. -/
def validateEmail (e : String) : Bool :=
  match jsSplit '@' e with
  | [l, d] => !(l = "") && !(d = "") && d.data.contains '.' && !(e.data.contains ' ')
  | _ => false

/-- Modelled from the spec: timestamps.  The code stores
`Date.toISOString()` strings and parses them back with `new Date`;
time is modelled in hours (the reset expiry is now + 1 hour) and the
ISO rendering as an injective encoding of a natural number of hours. -/
def encTime (n : Nat) : String := String.mk (List.replicate n 'x')

/-- Modelled from the spec: `new Date(s)` parsing of a stored expiry
string; a string that is not a valid encoded time yields an invalid
date (`none`), and any comparison against an invalid date is false. -/
def decTime (s : String) : Option Nat :=
  if !(s.data.isEmpty) && s.data.all (fun c => c = 'x') then some s.data.length else none

/-- `now >= new Date(expiryStr)` — false when the expiry does not parse
(JS `NaN` comparisons are false). -/
def expired (now : Nat) (s : String) : Bool :=
  match decTime s with
  | some e => decide (e ≤ now)
  | none => false

/-- `TABLE_NAME` from `constants.ts`. -/
def TABLE_NAME : String := "User Data Table"

/-- `ADDITIONAL_USER_FIELDS` from `constants.ts`: fields a user may edit. -/
def ADDITIONAL_USER_FIELDS : List String := ["username"]

/-- `RETRIEVABLE_USER_FIELDS` from `constants.ts` (note the spread
duplicates "username"). -/
def RETRIEVABLE_USER_FIELDS : List String :=
  ["username", "provider", "email"] ++ ADDITIONAL_USER_FIELDS

/-- Modelled from the spec: the Notifier (`emailTransport.sendMail` in
`sendTokenEmail`); success or failure is a parameter of the call, failure
surfaces as a 500 "Email failed to send". -/
def sendTokenEmail (notifyOk : Bool) : Except Err Unit :=
  if notifyOk then .ok () else .error ⟨"Email failed to send", 500⟩

/-- Modelled from the spec: the Notifier for the "password changed"
confirmation (`sendPasswordResetEmail`). -/
def sendPasswordResetEmail (notifyOk : Bool) : Except Err Unit :=
  if notifyOk then .ok () else .error ⟨"Email failed to send", 500⟩

/-- `validateTableName` (`dynamo.ts`): throws 400 unless the table is the
configured `TABLE_NAME`. -/
def validateTableName (table : String) : Except Err Unit :=
  if table = TABLE_NAME then .ok () else .error ⟨"Invalid Table Name", 400⟩

/-- Set (or add) one attribute on an item: replaces the first binding of
the key, else appends (DynamoDB `SET` semantics). -/
def setAttr : Item → String → String → Item
  | [], k, v => [(k, v)]
  | (k1, v1) :: rest, k, v =>
    if k1 = k then (k, v) :: rest else (k1, v1) :: setAttr rest k v

/-- Apply a field map to an item, left to right. -/
def setFields (it : Item) : List (String × String) → Item
  | [] => it
  | (k, v) :: rest => setFields (setAttr it k v) rest

/-- `PutCommand` semantics: one item per key — replace the item(s) with
the same `user_id`, else append. -/
def putItem (store : Store) (it : Item) : Store :=
  if store.any (fun o => uidOf o = uidOf it) then
    store.map (fun o => if uidOf o = uidOf it then it else o)
  else store ++ [it]

/-- `UpdateCommand` field application: update every item with the given
`user_id` (unique in any reachable store). -/
def editApply (store : Store) (uid : String) (fields : List (String × String)) : Store :=
  store.map (fun it => if uidOf it = some uid then setFields it fields else it)

/-- `databaseAddUser` (`dynamo.ts`): put a new item with the given
attributes; `undefined` optional attributes are not stored.  The fresh
`randomUUID()` is the `newId` parameter.  Returns the new id. -/
def databaseAddUser (username email : String) (passwordHash provider : Option String)
    (newId : String) (store : Store) : String × Store :=
  let item : Item :=
    [("user_id", newId), ("username", username)] ++
    (match passwordHash with | some h => [("password_hash", h)] | none => []) ++
    (match provider with | some p => [("provider", p)] | none => []) ++
    [("email", email)]
  (newId, putItem store item)

/-- `databaseEditUser` (`dynamo.ts`): conditional update
(`attribute_exists(user_id)`); any client error (missing item, undefined
key, empty update expression) is caught and rethrown as 400
"User Id does not exist".  The key is an `Option` because callers can
pass through an absent `item.user_id`. -/
def databaseEditUser (userID : Option String) (infoValues : List (String × String))
    (store : Store) : Except Err Unit × Store :=
  match userID with
  | none => (.error ⟨"User Id does not exist", 400⟩, store)
  | some uid =>
    if infoValues.isEmpty then (.error ⟨"User Id does not exist", 400⟩, store)
    else if store.any (fun it => uidOf it = some uid) then
      (.ok (), editApply store uid infoValues)
    else (.error ⟨"User Id does not exist", 400⟩, store)

/-- `GetCommand` item lookup by key. -/
def dbFindById (store : Store) (uid : String) : Option Item :=
  store.find? (fun it => uidOf it = some uid)

/-- First item of the scan whose `email` attribute equals the given email
(every engine loop breaks or throws at the first email match). -/
def findFirstEmail (email : String) (store : Store) : Option Item :=
  store.find? (fun it => getAttr it "email" = some email)

/-- `ProjectionExpression`: keep only the requested attributes that are
present on the item. -/
def projectItem (it : Item) (names : List String) : Item :=
  names.filterMap (fun n => (getAttr it n).map (fun v => (n, v)))

/-- `registerUser`'s duplicate-email scan: throws 409 at the first item
with the same email, naming the provider when the existing record is an
OAuth account. -/
def registerScan (email : String) : Store → Except Err Unit
  | [] => .ok ()
  | it :: rest =>
    if getAttr it "email" = some email then
      .error ⟨"Email has been taken." ++
        (if truthy (getAttr it "provider") then
          " Did you mean to sign in using " ++ showAttr (getAttr it "provider") ++ "?"
        else ""), 409⟩
    else registerScan email rest

/-- `registerUser` (`dynamo.ts`). -/
def registerUser (table username password email newId : String) (store : Store) :
    Except Err String × Store :=
  match validateTableName table with
  | .error e => (.error e, store)
  | .ok _ =>
    if !validateEmail email then (.error ⟨"Invalid Email", 400⟩, store)
    else match registerScan email store with
      | .error e => (.error e, store)
      | .ok _ =>
        let hashedPassword := hashFn password
        let r := databaseAddUser username email (some hashedPassword) none newId store
        (.ok r.1, r.2)

/-- `authenticateUser`'s scan loop: at an email match, throw 403 for an
OAuth record, return the id on password match, otherwise continue; after
the loop throw the single generic 401. -/
def authScan (email password : String) : Store → Except Err (Option String)
  | [] => .error ⟨"Authentication Error (Incorrect email or password)", 401⟩
  | it :: rest =>
    if getAttr it "email" = some email then
      if truthy (getAttr it "provider") then
        .error ⟨"You previously signed up using " ++ showAttr (getAttr it "provider") ++
          ". Please use that to sign in instead.", 403⟩
      else match getAttr it "password_hash" with
        | none => .error illegalArgsErr
        | some ph =>
          if bcryptVerify password ph then .ok (uidOf it)
          else authScan email password rest
    else authScan email password rest

/-- `authenticateUser` (`dynamo.ts`); reads only, never writes. -/
def authenticateUser (table email password : String) (store : Store) :
    Except Err (Option String) :=
  match validateTableName table with
  | .error e => .error e
  | .ok _ => authScan email password store

/-- `authenticateOauthUser` (`dynamo.ts`). -/
def authenticateOauthUser (table username provider email newId : String) (store : Store) :
    Except Err (Option String) × Store :=
  match validateTableName table with
  | .error e => (.error e, store)
  | .ok _ =>
    match findFirstEmail email store with
    | some it =>
      if truthy (getAttr it "password_hash") then
        (.error ⟨"You signed up with a password. Please sign in with your password instead.",
          403⟩, store)
      else if getAttr it "provider" = some provider then
        (.ok (uidOf it), store)
      else
        (.error ⟨"You first signed up via " ++ showAttr (getAttr it "provider") ++
          ". Please use that provider instead.", 403⟩, store)
    | none =>
      let r := databaseAddUser username email none (some provider) newId store
      (.ok (some r.1), r.2)

/-- `setUserInfo`'s validation loop: throws 400 at the first field whose
lowercasing is outside `ADDITIONAL_USER_FIELDS`. -/
def checkFields : List (String × String) → Except Err Unit
  | [] => .ok ()
  | (field, _) :: rest =>
    if jsToLower field ∈ ADDITIONAL_USER_FIELDS then checkFields rest
    else .error ⟨"User field \x27" ++ field ++ "\x27 is invalid", 400⟩

/-- `setUserInfo` (`dynamo.ts`): validate the whole map, then update;
any update failure is remapped to 400 "User Id does not exist". -/
def setUserInfo (table user_id : String) (info : List (String × String)) (store : Store) :
    Except Err Unit × Store :=
  match validateTableName table with
  | .error e => (.error e, store)
  | .ok _ =>
    match checkFields info with
    | .error e => (.error e, store)
    | .ok _ =>
      match databaseEditUser (some user_id) info store with
      | (.error _, s) => (.error ⟨"User Id does not exist", 400⟩, s)
      | (.ok _, s) => (.ok (), s)

/-- `getUserInfo`'s validation loop over the requested (trimmed) fields. -/
def checkRetrievable : List String → Except Err Unit
  | [] => .ok ()
  | field :: rest =>
    if jsToLower field ∈ RETRIEVABLE_USER_FIELDS then checkRetrievable rest
    else .error ⟨"User field \x27" ++ field ++ "\x27 is invalid", 400⟩

/-- `getUserInfo` (`dynamo.ts`); reads only.  `fields` is the raw
comma-separated request string; the projection uses the trimmed names in
their original casing. -/
def getUserInfo (table user_id fields : String) (store : Store) : Except Err Item :=
  match validateTableName table with
  | .error e => .error e
  | .ok _ =>
    let fieldsArray := (jsSplit ',' fields).map jsTrim
    match checkRetrievable fieldsArray with
    | .error e => .error e
    | .ok _ =>
      match dbFindById store user_id with
      | none => .error ⟨"Invalid User Id", 400⟩
      | some it =>
        let proj := projectItem it fieldsArray
        if proj.isEmpty then
          .error ⟨"Uninitialised value/s: \x27" ++ fields ++ "\x27", 400⟩
        else .ok proj

/-- `changePassword` (`dynamo.ts`). -/
def changePassword (table email oldPassword newPassword : String) (store : Store) :
    Except Err Unit × Store :=
  match validateTableName table with
  | .error e => (.error e, store)
  | .ok _ =>
    if oldPassword = newPassword then
      (.error ⟨"New password cannot be the same as your old password", 400⟩, store)
    else
      match authenticateUser table email oldPassword store with
      | .error err =>
        if err.statusCode = 403 then
          (.error ⟨"You cannot change your password as you signed in with a third-party provider.",
            403⟩, store)
        else (.error err, store)
      | .ok userId =>
        let hashedPassword := hashFn newPassword
        databaseEditUser userId [("password_hash", hashedPassword)] store

/-- `deleteUser` (`dynamo.ts`): conditional delete, 400 when the id does
not exist. -/
def deleteUser (table userId : String) (store : Store) : Except Err Unit × Store :=
  match validateTableName table with
  | .error e => (.error e, store)
  | .ok _ =>
    if store.any (fun it => uidOf it = some userId) then
      (.ok (), store.filter (fun it => !(uidOf it = some userId)))
    else (.error ⟨"User Id does not exist", 400⟩, store)

/-- `sendPasswordResetToken` (`dynamo.ts`).  The random token
(`crypto.randomBytes`) is the `token` parameter, the clock the `now`
parameter; the loop's `userId` variable starting at `""` and the final
`userId === ""` check are modelled with `some ""` as the unassigned
value. -/
def sendPasswordResetToken (table email : String) (token : String) (now : Nat)
    (notifyOk : Bool) (store : Store) : Except Err String × Store :=
  match validateTableName table with
  | .error e => (.error e, store)
  | .ok _ =>
    if !validateEmail email then (.error ⟨"Email does not exist", 400⟩, store)
    else
      match
        (match findFirstEmail email store with
         | none => Except.ok (some "")
         | some it =>
           if truthy (getAttr it "provider") then
             Except.error (⟨"You previously signed up using " ++
               showAttr (getAttr it "provider") ++
               ", so you do not have a password to reset.", 403⟩ : Err)
           else Except.ok (uidOf it)) with
      | .error e => (.error e, store)
      | .ok userId =>
        if userId = some "" then (.error ⟨"Email does not exist", 400⟩, store)
        else
          let hashedToken := hashFn token
          let expiryStr := encTime (now + 1)
          match databaseEditUser userId
              [("resetToken", hashedToken), ("tokenExpiry", expiryStr)] store with
          | (.error e, s) => (.error e, s)
          | (.ok _, s) =>
            match sendTokenEmail notifyOk with
            | .error e => (.error e, s)
            | .ok _ => (.ok token, s)

/-- `resetPassword` (`dynamo.ts`). -/
def resetPassword (table email token newPassword : String) (now : Nat)
    (notifyOk : Bool) (store : Store) : Except Err Unit × Store :=
  match validateTableName table with
  | .error e => (.error e, store)
  | .ok _ =>
    if !validateEmail email then (.error ⟨"Email does not exist", 400⟩, store)
    else
      match findFirstEmail email store with
      | none => (.error ⟨"Email does not exist", 400⟩, store)
      | some it =>
        if truthy (getAttr it "provider") then
          (.error ⟨"You previously signed up using " ++ showAttr (getAttr it "provider") ++
            ", so you do not have a password to reset.", 403⟩, store)
        else match getAttr it "password_hash" with
        | none => (.error illegalArgsErr, store)
        | some ph =>
          if bcryptVerify newPassword ph then
            (.error ⟨"New password cannot be the same as your old password", 400⟩, store)
          else if getAttr it "resetToken" = none ∨ getAttr it "tokenExpiry" = none ∨
              getAttr it "resetToken" = some "" ∨ getAttr it "tokenExpiry" = some "" then
            (.error ⟨"Invalid Token", 400⟩, store)
          else
            if expired now ((getAttr it "tokenExpiry").getD "") then
              match databaseEditUser (uidOf it)
                  [("resetToken", ""), ("tokenExpiry", "")] store with
              | (.error e, s) => (.error e, s)
              | (.ok _, s) => (.error ⟨"Invalid Token", 400⟩, s)
            else if !(bcryptVerify token ((getAttr it "resetToken").getD "")) then
              (.error ⟨"Invalid Token", 400⟩, store)
            else if uidOf it = some "" then
              (.error ⟨"Email does not exist", 400⟩, store)
            else
              match databaseEditUser (uidOf it)
                  [("resetToken", ""), ("tokenExpiry", ""),
                   ("password_hash", hashFn newPassword)] store with
              | (.error e, s) => (.error e, s)
              | (.ok _, s) =>
                match sendPasswordResetEmail notifyOk with
                | .error e => (.error e, s)
                | .ok _ => (.ok (), s)

/-- One engine operation, as dispatched by the router (which always
supplies the configured `TABLE_NAME`); non-deterministic inputs
(fresh ids, random tokens, the clock, notifier success) are data of the
operation. -/
inductive Op where
  | register (username password email newId : String)
  | handleOauth (username provider email newId : String)
  | authenticate (email password : String)
  | setInfo (user_id : String) (info : List (String × String))
  | getInfo (user_id fields : String)
  | changePw (email oldPassword newPassword : String)
  | deleteU (user_id : String)
  | issueReset (email token : String) (now : Nat) (notifyOk : Bool)
  | resetPw (email token newPassword : String) (now : Nat) (notifyOk : Bool)

/-- State transition of one operation on the store. -/
def stepOp (op : Op) (store : Store) : Store :=
  match op with
  | .register u p e id => (registerUser TABLE_NAME u p e id store).2
  | .handleOauth u pr e id => (authenticateOauthUser TABLE_NAME u pr e id store).2
  | .authenticate _ _ => store
  | .setInfo uid info => (setUserInfo TABLE_NAME uid info store).2
  | .getInfo _ _ => store
  | .changePw e op2 np => (changePassword TABLE_NAME e op2 np store).2
  | .deleteU uid => (deleteUser TABLE_NAME uid store).2
  | .issueReset e t n ok => (sendPasswordResetToken TABLE_NAME e t n ok store).2
  | .resetPw e t np n ok => (resetPassword TABLE_NAME e t np n ok store).2

/-- Run a sequence of engine operations. -/
def runOps (ops : List Op) (store : Store) : Store :=
  ops.foldl (fun s op => stepOp op s) store

/-- Exactly one authentication mode: a password account (`password_hash`
set, `provider` absent) or an OAuth account (`provider` set,
`password_hash` absent); the two disjuncts are mutually exclusive. -/
def modeOK (it : Item) : Prop :=
  ((getAttr it "password_hash").isSome ∧ getAttr it "provider" = none) ∨
  ((getAttr it "provider").isSome ∧ getAttr it "password_hash" = none)

/-- Well-formed store: every record has exactly one mode and the primary
keys are pairwise distinct (DynamoDB key uniqueness). -/
def WF (store : Store) : Prop :=
  (∀ it ∈ store, modeOK it) ∧ (store.map uidOf).Nodup

/-! ### Lemmas about the model primitives -/

theorem hashFn_inj {a b : String} (h : hashFn a = hashFn b) : a = b := by
  have h2 : '#' :: a.data = '#' :: b.data := congrArg String.data h
  have h3 : a.data = b.data := by simpa using h2
  cases a
  cases b
  exact congrArg String.mk h3

theorem hashFn_ne_empty (s : String) : hashFn s ≠ "" := by
  cases s
  simp [hashFn, String.ext_iff]

theorem truthy_some_hashFn (s : String) : truthy (some (hashFn s)) = true := by
  simp [truthy, hashFn_ne_empty]

theorem truthy_none : truthy none = false := rfl

theorem getAttr_setAttr_self (it : Item) (k v : String) :
    getAttr (setAttr it k v) k = some v := by
  induction it with
  | nil => simp [setAttr, getAttr]
  | cons p rest ih =>
    obtain ⟨k1, v1⟩ := p
    by_cases h : k1 = k
    · simp [setAttr, h, getAttr]
    · simp [setAttr, h, getAttr, ih]

theorem getAttr_setAttr_ne (it : Item) {k k2 : String} (v : String) (h : k2 ≠ k) :
    getAttr (setAttr it k v) k2 = getAttr it k2 := by
  induction it with
  | nil => simp [setAttr, getAttr, Ne.symm h]
  | cons p rest ih =>
    obtain ⟨k1, v1⟩ := p
    by_cases h1 : k1 = k
    · subst h1
      simp [setAttr, getAttr, Ne.symm h]
    · simp only [setAttr, if_neg h1]
      by_cases h2 : k1 = k2
      · simp [getAttr, h2]
      · simp [getAttr, h2, ih]

theorem getAttr_setFields_not_mem (fields : List (String × String)) (it : Item) {k : String}
    (h : ∀ p ∈ fields, p.1 ≠ k) : getAttr (setFields it fields) k = getAttr it k := by
  induction fields generalizing it with
  | nil => rfl
  | cons p rest ih =>
    obtain ⟨k1, v1⟩ := p
    rw [setFields, ih (setAttr it k1 v1) (fun q hq => h q (List.mem_cons_of_mem _ hq))]
    exact getAttr_setAttr_ne it v1 fun he =>
      h (k1, v1) (List.mem_cons_self _ _) he.symm

theorem uidOf_setFields (fields : List (String × String)) (it : Item)
    (h : ∀ p ∈ fields, p.1 ≠ "user_id") : uidOf (setFields it fields) = uidOf it :=
  getAttr_setFields_not_mem fields it h

theorem find?_append_none {α} (p : α → Bool) {pre : List α}
    (h : ∀ x ∈ pre, p x = false) (rest : List α) :
    (pre ++ rest).find? p = rest.find? p := by
  induction pre with
  | nil => rfl
  | cons a l ih =>
    rw [List.cons_append, List.find?, h a (List.mem_cons_self _ _)]
    exact ih fun x hx => h x (List.mem_cons_of_mem _ hx)

theorem findFirstEmail_decomp {email : String} {pre : Store} (post : Store) {it : Item}
    (hpre : ∀ o ∈ pre, getAttr o "email" ≠ some email)
    (hit : getAttr it "email" = some email) :
    findFirstEmail email (pre ++ it :: post) = some it := by
  unfold findFirstEmail
  rw [find?_append_none _ (fun o ho => by simp [hpre o ho]) _]
  simp [List.find?, hit]

theorem findFirstEmail_none {email : String} {s : Store}
    (h : ∀ o ∈ s, getAttr o "email" ≠ some email) :
    findFirstEmail email s = none := by
  unfold findFirstEmail
  rw [List.find?_eq_none]
  intro o ho
  simp [h o ho]

theorem findFirstEmail_mem {email : String} {s : Store} {it : Item}
    (h : findFirstEmail email s = some it) :
    it ∈ s ∧ getAttr it "email" = some email := by
  refine ⟨List.mem_of_find?_eq_some h, ?_⟩
  have := List.find?_some h
  simpa using this

theorem findFirstEmail_map {email : String} (f : Item → Item)
    (hf : ∀ it, getAttr (f it) "email" = getAttr it "email") (s : Store) :
    findFirstEmail email (s.map f) = (findFirstEmail email s).map f := by
  induction s with
  | nil => rfl
  | cons it rest ih =>
    unfold findFirstEmail at *
    rw [List.map_cons, List.find?, List.find?]
    by_cases he : getAttr it "email" = some email
    · simp [hf it, he]
    · simp only [hf it, he, decide_False]
      exact ih

theorem registerScan_append {email : String} {pre : Store}
    (h : ∀ o ∈ pre, getAttr o "email" ≠ some email) (rest : Store) :
    registerScan email (pre ++ rest) = registerScan email rest := by
  induction pre with
  | nil => rfl
  | cons it l ih =>
    rw [List.cons_append]
    simp only [registerScan, h it (List.mem_cons_self _ _), if_false]
    exact ih fun o ho => h o (List.mem_cons_of_mem _ ho)

theorem registerScan_ok_inv {email : String} {s : Store}
    (h : registerScan email s = .ok ()) : ∀ o ∈ s, getAttr o "email" ≠ some email := by
  induction s with
  | nil => simp
  | cons it rest ih =>
    intro o ho
    rw [registerScan] at h
    by_cases he : getAttr it "email" = some email
    · simp [he] at h
    · rcases List.mem_cons.1 ho with rfl | ho2
      · exact he
      · exact ih (by simpa [he] using h) o ho2

theorem authScan_append {email password : String} {pre : Store}
    (h : ∀ o ∈ pre, getAttr o "email" ≠ some email) (rest : Store) :
    authScan email password (pre ++ rest) = authScan email password rest := by
  induction pre with
  | nil => rfl
  | cons it l ih =>
    rw [List.cons_append]
    simp only [authScan, h it (List.mem_cons_self _ _), if_false]
    exact ih fun o ho => h o (List.mem_cons_of_mem _ ho)

theorem authScan_fail {email password : String} {s : Store}
    (h : ∀ it ∈ s, getAttr it "email" = some email →
      getAttr it "provider" = none ∧
      ∃ ph, getAttr it "password_hash" = some ph ∧ bcryptVerify password ph = false) :
    authScan email password s =
      .error ⟨"Authentication Error (Incorrect email or password)", 401⟩ := by
  induction s with
  | nil => rfl
  | cons it rest ih =>
    have htail := fun o ho => h o (List.mem_cons_of_mem _ ho)
    by_cases he : getAttr it "email" = some email
    · obtain ⟨hp, ph, hph, hv⟩ := h it (List.mem_cons_self _ _) he
      simp only [authScan, he, if_true, hp, truthy_none, Bool.false_eq_true, if_false, hph, hv]
      exact ih htail
    · simp only [authScan, he, if_false]
      exact ih htail

theorem authScan_ok_inv {email password : String} {s : Store} {u : Option String}
    (h : authScan email password s = .ok u) :
    ∃ it ∈ s, getAttr it "email" = some email ∧
      (getAttr it "password_hash").isSome ∧ uidOf it = u := by
  induction s with
  | nil => simp [authScan] at h
  | cons it rest ih =>
    rw [authScan] at h
    split at h
    next he =>
      split at h
      next => exact absurd h (by simp)
      next =>
        split at h
        next => exact absurd h (by simp [illegalArgsErr])
        next ph hph =>
          split at h
          next =>
            refine ⟨it, List.mem_cons_self _ _, he, by simp [hph], ?_⟩
            simpa using h
          next =>
            obtain ⟨o, ho, rest2⟩ := ih h
            exact ⟨o, List.mem_cons_of_mem _ ho, rest2⟩
    next he =>
      obtain ⟨o, ho, rest2⟩ := ih h
      exact ⟨o, List.mem_cons_of_mem _ ho, rest2⟩

/-! ### Well-formedness machinery for the one-mode invariant -/

theorem modeOK_setFields_nonmode {fields : List (String × String)} (it : Item)
    (h : ∀ p ∈ fields, p.1 ≠ "password_hash" ∧ p.1 ≠ "provider")
    (hm : modeOK it) : modeOK (setFields it fields) := by
  unfold modeOK at *
  rw [getAttr_setFields_not_mem fields it (fun p hp => (h p hp).1),
    getAttr_setFields_not_mem fields it (fun p hp => (h p hp).2)]
  exact hm

theorem map_uidOf_editApply (s : Store) (uid : String) (fields : List (String × String))
    (h : ∀ p ∈ fields, p.1 ≠ "user_id") :
    (editApply s uid fields).map uidOf = s.map uidOf := by
  unfold editApply
  rw [List.map_map]
  refine List.map_congr_left fun it _ => ?_
  by_cases hu : uidOf it = some uid
  · simp [Function.comp, hu, uidOf_setFields fields it h]
  · simp [Function.comp, hu]

theorem WF_editApply (s : Store) (uid : String) (fields : List (String × String))
    (hk : ∀ p ∈ fields, p.1 ≠ "user_id")
    (hmode : ∀ o ∈ s, uidOf o = some uid → modeOK (setFields o fields))
    (h : WF s) : WF (editApply s uid fields) := by
  obtain ⟨h1, h2⟩ := h
  constructor
  · intro it hit
    unfold editApply at hit
    obtain ⟨o, ho, rfl⟩ := List.mem_map.1 hit
    by_cases hu : uidOf o = some uid
    · simpa [hu] using hmode o ho hu
    · simpa [hu] using h1 o ho
  · rw [map_uidOf_editApply s uid fields hk]
    exact h2

theorem WF_databaseEditUser_nonmode (u : Option String) (fields : List (String × String))
    (s : Store)
    (hk : ∀ p ∈ fields, p.1 ≠ "user_id" ∧ p.1 ≠ "password_hash" ∧ p.1 ≠ "provider")
    (h : WF s) : WF (databaseEditUser u fields s).2 := by
  cases u with
  | none => simpa [databaseEditUser] using h
  | some uid =>
    by_cases he : fields.isEmpty
    · simpa [databaseEditUser, he] using h
    · by_cases ha : s.any (fun it => uidOf it = some uid)
      · simp only [databaseEditUser, he, ha, if_true, if_false, Bool.false_eq_true]
        exact WF_editApply s uid fields (fun p hp => (hk p hp).1)
          (fun o ho _ => modeOK_setFields_nonmode o
            (fun p hp => ⟨(hk p hp).2.1, (hk p hp).2.2⟩) (h.1 o ho)) h
      · simp only [databaseEditUser, he, ha, if_false, Bool.false_eq_true]
        exact h

theorem WF_putItem (s : Store) (it : Item) (hm : modeOK it) (h : WF s) :
    WF (putItem s it) := by
  obtain ⟨h1, h2⟩ := h
  unfold putItem
  by_cases ha : s.any (fun o => uidOf o = uidOf it)
  · rw [if_pos ha]
    constructor
    · intro o ho
      obtain ⟨o2, ho2, rfl⟩ := List.mem_map.1 ho
      by_cases hu : uidOf o2 = uidOf it
      · simpa [hu] using hm
      · simpa [hu] using h1 o2 ho2
    · rw [List.map_map]
      have hmap : List.map (uidOf ∘ fun o => if uidOf o = uidOf it then it else o) s =
          List.map uidOf s := by
        refine List.map_congr_left fun o _ => ?_
        by_cases hu : uidOf o = uidOf it
        · simp [Function.comp, hu]
        · simp [Function.comp, hu]
      rw [hmap]
      exact h2
  · rw [if_neg ha]
    constructor
    · intro o ho
      rcases List.mem_append.1 ho with ho1 | ho2
      · exact h1 o ho1
      · rw [List.mem_singleton.1 ho2]
        exact hm
    · rw [List.map_append]
      refine List.Nodup.append h2 (List.nodup_singleton _) ?_
      intro a ha1 ha2
      simp only [List.any_eq_true, decide_eq_true_eq, not_exists, not_and] at ha
      obtain ⟨o, ho, rfl⟩ := List.mem_map.1 ha1
      rw [List.map_singleton, List.mem_singleton] at ha2
      exact (ha o ho) ha2

theorem WF_filter (s : Store) (p : Item → Bool) (h : WF s) : WF (s.filter p) := by
  obtain ⟨h1, h2⟩ := h
  refine ⟨fun it hit => h1 it (List.mem_of_mem_filter hit), ?_⟩
  exact h2.sublist (List.Sublist.map uidOf (List.filter_sublist s))

theorem checkFields_ok_inv {info : List (String × String)} (h : checkFields info = .ok ()) :
    ∀ p ∈ info, jsToLower p.1 ∈ ADDITIONAL_USER_FIELDS := by
  induction info with
  | nil => simp
  | cons p rest ih =>
    obtain ⟨k, v⟩ := p
    rw [checkFields] at h
    split at h
    next hk =>
      intro q hq
      rcases List.mem_cons.1 hq with rfl | hq2
      · exact hk
      · exact ih h q hq2
    next hk => exact absurd h (by simp)

theorem allowed_key_ne {k : String} (h : jsToLower k ∈ ADDITIONAL_USER_FIELDS) :
    k ≠ "user_id" ∧ k ≠ "password_hash" ∧ k ≠ "provider" := by
  refine ⟨?_, ?_, ?_⟩ <;> rintro rfl <;> revert h <;> decide

theorem validateTableName_ok : validateTableName TABLE_NAME = .ok () := rfl

theorem fields_pw_keys (v : String) :
    ∀ p ∈ ([("password_hash", v)] : List (String × String)), p.1 ≠ "user_id" := by
  intro p hp
  rw [List.mem_singleton] at hp
  subst hp
  exact (by decide : ("password_hash" : String) ≠ "user_id")

theorem fields_issue_keys (a b : String) :
    ∀ p ∈ ([("resetToken", a), ("tokenExpiry", b)] : List (String × String)),
      p.1 ≠ "user_id" ∧ p.1 ≠ "password_hash" ∧ p.1 ≠ "provider" := by
  intro p hp
  rcases List.mem_cons.1 hp with rfl | hp2
  · exact ⟨(by decide : ("resetToken" : String) ≠ "user_id"),
      (by decide : ("resetToken" : String) ≠ "password_hash"),
      (by decide : ("resetToken" : String) ≠ "provider")⟩
  · rw [List.mem_singleton] at hp2
    subst hp2
    exact ⟨(by decide : ("tokenExpiry" : String) ≠ "user_id"),
      (by decide : ("tokenExpiry" : String) ≠ "password_hash"),
      (by decide : ("tokenExpiry" : String) ≠ "provider")⟩

theorem fields_resetpw_keys (v : String) :
    ∀ p ∈ ([("resetToken", ""), ("tokenExpiry", ""), ("password_hash", v)] :
      List (String × String)), p.1 ≠ "user_id" := by
  intro p hp
  rcases List.mem_cons.1 hp with rfl | hp2
  · exact (by decide : ("resetToken" : String) ≠ "user_id")
  · rcases List.mem_cons.1 hp2 with rfl | hp3
    · exact (by decide : ("tokenExpiry" : String) ≠ "user_id")
    · rw [List.mem_singleton] at hp3
      subst hp3
      exact (by decide : ("password_hash" : String) ≠ "user_id")

theorem databaseAddUser_snd_password (u e h2 id : String) (s : Store) :
    (databaseAddUser u e (some h2) none id s).2 =
      putItem s [("user_id", id), ("username", u), ("password_hash", h2), ("email", e)] := rfl

theorem databaseAddUser_snd_oauth (u e pr id : String) (s : Store) :
    (databaseAddUser u e none (some pr) id s).2 =
      putItem s [("user_id", id), ("username", u), ("provider", pr), ("email", e)] := rfl

theorem modeOK_password_item (u e h2 id : String) :
    modeOK [("user_id", id), ("username", u), ("password_hash", h2), ("email", e)] :=
  Or.inl ⟨rfl, rfl⟩

theorem modeOK_oauth_item (u e pr id : String) :
    modeOK [("user_id", id), ("username", u), ("provider", pr), ("email", e)] :=
  Or.inr ⟨rfl, rfl⟩

theorem modeOK_provider_none {it : Item} (hm : modeOK it)
    (hsome : (getAttr it "password_hash").isSome = true) :
    getAttr it "provider" = none := by
  rcases hm with ⟨_, hp⟩ | ⟨_, hph⟩
  · exact hp
  · rw [hph] at hsome
    simp at hsome

theorem modeOK_set_password {it : Item} (hm : modeOK it)
    (hsome : (getAttr it "password_hash").isSome = true) (v : String) :
    modeOK (setFields it [("password_hash", v)]) := by
  left
  constructor
  · rw [setFields, setFields, getAttr_setAttr_self]
    rfl
  · rw [setFields, setFields, getAttr_setAttr_ne it v (by decide)]
    exact modeOK_provider_none hm hsome

theorem modeOK_set_reset_password {it : Item} (hm : modeOK it)
    (hsome : (getAttr it "password_hash").isSome = true) (v : String) :
    modeOK (setFields it [("resetToken", ""), ("tokenExpiry", ""), ("password_hash", v)]) := by
  left
  constructor
  · rw [setFields, setFields, setFields, setFields, getAttr_setAttr_self]
    rfl
  · rw [setFields, setFields, setFields, setFields,
      getAttr_setAttr_ne _ v (by decide), getAttr_setAttr_ne _ "" (by decide),
      getAttr_setAttr_ne _ "" (by decide)]
    exact modeOK_provider_none hm hsome

theorem uid_unique {s : Store} (h2 : (s.map uidOf).Nodup) {o it : Item} {uid : String}
    (ho : o ∈ s) (hit : it ∈ s) (huo : uidOf o = some uid) (huid : uidOf it = some uid) :
    o = it :=
  List.inj_on_of_nodup_map h2 ho hit (by rw [huo, huid])

/-- `databaseEditUser` preserves well-formedness when every item carrying
the edited key is a password account and the fields are a password-type
update (used for the two password-writing updates). -/
theorem WF_databaseEditUser_password (u : Option String) (s : Store)
    (fields : List (String × String))
    (hk : ∀ p ∈ fields, p.1 ≠ "user_id")
    (hmode : ∀ uid, u = some uid → ∀ o ∈ s, uidOf o = some uid → modeOK (setFields o fields))
    (h : WF s) : WF (databaseEditUser u fields s).2 := by
  cases u with
  | none => simpa [databaseEditUser] using h
  | some uid =>
    by_cases he : fields.isEmpty
    · simpa [databaseEditUser, he] using h
    · by_cases ha : s.any (fun it => uidOf it = some uid)
      · simp only [databaseEditUser, he, ha, if_true, if_false, Bool.false_eq_true]
        exact WF_editApply s uid fields hk (fun o ho huo => hmode uid rfl o ho huo) h
      · simp only [databaseEditUser, he, ha, if_false, Bool.false_eq_true]
        exact h

theorem WF_registerUser (u p e id : String) (s : Store) (h : WF s) :
    WF (registerUser TABLE_NAME u p e id s).2 := by
  unfold registerUser
  simp only [validateTableName_ok]
  by_cases hv : validateEmail e = true
  · simp only [hv, Bool.not_true, Bool.false_eq_true, if_false]
    cases hscan : registerScan e s with
    | error err => simpa using h
    | ok u2 =>
      simp only []
      rw [databaseAddUser_snd_password]
      exact WF_putItem s _ (modeOK_password_item u e (hashFn p) id) h
  · simp only [hv]
    simpa using h

theorem WF_authenticateOauthUser (u pr e id : String) (s : Store) (h : WF s) :
    WF (authenticateOauthUser TABLE_NAME u pr e id s).2 := by
  unfold authenticateOauthUser
  simp only [validateTableName_ok]
  cases hf : findFirstEmail e s with
  | some it =>
    simp only []
    split
    next => exact h
    next =>
      split
      next => exact h
      next => exact h
  | none =>
    simp only []
    rw [databaseAddUser_snd_oauth]
    exact WF_putItem s _ (modeOK_oauth_item u e pr id) h

theorem WF_setUserInfo (uid : String) (info : List (String × String)) (s : Store)
    (h : WF s) : WF (setUserInfo TABLE_NAME uid info s).2 := by
  unfold setUserInfo
  simp only [validateTableName_ok]
  cases hc : checkFields info with
  | error err => simpa using h
  | ok u2 =>
    have hkeys : ∀ q ∈ info, jsToLower q.1 ∈ ADDITIONAL_USER_FIELDS := by
      cases u2
      exact checkFields_ok_inv hc
    have hWF := WF_databaseEditUser_nonmode (some uid) info s
      (fun q hq => allowed_key_ne (hkeys q hq)) h
    rcases hd : databaseEditUser (some uid) info s with ⟨r, s2⟩
    rw [hd] at hWF
    cases r <;> simp only [hd] <;> exact hWF

theorem WF_changePassword (e op2 np : String) (s : Store) (h : WF s) :
    WF (changePassword TABLE_NAME e op2 np s).2 := by
  unfold changePassword
  simp only [validateTableName_ok]
  by_cases hsame : op2 = np
  · simpa [hsame] using h
  · simp only [hsame, if_false]
    cases hauth : authenticateUser TABLE_NAME e op2 s with
    | error err =>
      simp only []
      split <;> exact h
    | ok uo =>
      simp only []
      obtain ⟨it, hit, hemail, hsome, huid⟩ := authScan_ok_inv
        (by simpa [authenticateUser, validateTableName_ok] using hauth)
      refine WF_databaseEditUser_password uo s [("password_hash", hashFn np)]
        (fields_pw_keys (hashFn np)) ?_ h
      intro uid hu o ho huo
      rw [hu] at huid
      have : o = it := uid_unique h.2 ho hit huo huid
      rw [this]
      exact modeOK_set_password (h.1 it hit) hsome (hashFn np)

theorem WF_sendPasswordResetToken (e tok : String) (now : Nat) (ok : Bool) (s : Store)
    (h : WF s) : WF (sendPasswordResetToken TABLE_NAME e tok now ok s).2 := by
  unfold sendPasswordResetToken
  simp only [validateTableName_ok]
  by_cases hv : validateEmail e = true
  · simp only [hv, Bool.not_true, Bool.false_eq_true, if_false]
    split
    next => exact h
    next userId heq =>
      split
      next => exact h
      next =>
        have hWF := WF_databaseEditUser_nonmode userId
          [("resetToken", hashFn tok), ("tokenExpiry", encTime (now + 1))] s
          (fields_issue_keys (hashFn tok) (encTime (now + 1))) h
        rcases hd : databaseEditUser userId
            [("resetToken", hashFn tok), ("tokenExpiry", encTime (now + 1))] s with ⟨r, s2⟩
        rw [hd] at hWF
        cases r <;> simp only [hd] <;> try exact hWF
        split <;> exact hWF
  · simp only [hv]
    simpa using h

theorem WF_deleteUser (uid : String) (s : Store) (h : WF s) :
    WF (deleteUser TABLE_NAME uid s).2 := by
  unfold deleteUser
  simp only [validateTableName_ok]
  split
  · exact WF_filter s _ h
  · exact h

theorem WF_resetPassword (e tok np : String) (now : Nat) (ok : Bool) (s : Store)
    (h : WF s) : WF (resetPassword TABLE_NAME e tok np now ok s).2 := by
  unfold resetPassword
  simp only [validateTableName_ok]
  by_cases hv : validateEmail e = true
  · simp only [hv, Bool.not_true, Bool.false_eq_true, if_false]
    cases hf : findFirstEmail e s with
    | none => simpa using h
    | some it =>
      obtain ⟨hit, hemail⟩ := findFirstEmail_mem hf
      simp only []
      split
      next => exact h
      next hp =>
        split
        next => exact h
        next ph hph =>
          split
          next => exact h
          next hbv =>
            split
            next => exact h
            next hrt =>
              split
              next hexp =>
                have hWF := WF_databaseEditUser_nonmode (uidOf it)
                  [("resetToken", ""), ("tokenExpiry", "")] s (by decide) h
                rcases hd : databaseEditUser (uidOf it)
                    [("resetToken", ""), ("tokenExpiry", "")] s with ⟨r, s2⟩
                rw [hd] at hWF
                cases r <;> simp only [hd] <;> exact hWF
              next hexp =>
                split
                next => exact h
                next htok =>
                  split
                  next => exact h
                  next hu0 =>
                    have hWF := WF_databaseEditUser_password (uidOf it) s
                      [("resetToken", ""), ("tokenExpiry", ""),
                       ("password_hash", hashFn np)] (fields_resetpw_keys (hashFn np)) ?_ h
                    · rcases hd : databaseEditUser (uidOf it)
                          [("resetToken", ""), ("tokenExpiry", ""),
                           ("password_hash", hashFn np)] s with ⟨r, s2⟩
                      rw [hd] at hWF
                      cases r <;> simp only [hd] <;> try exact hWF
                      split <;> exact hWF
                    · intro uid hu o ho huo
                      have : o = it := uid_unique h.2 ho hit huo hu
                      rw [this]
                      exact modeOK_set_reset_password (h.1 it hit) (by rw [hph]; rfl)
                        (hashFn np)
  · simp only [hv]
    simpa using h

theorem WF_stepOp (op : Op) (s : Store) (h : WF s) : WF (stepOp op s) := by
  cases op with
  | register u p e id => exact WF_registerUser u p e id s h
  | handleOauth u pr e id => exact WF_authenticateOauthUser u pr e id s h
  | authenticate e p => exact h
  | setInfo uid info => exact WF_setUserInfo uid info s h
  | getInfo uid f => exact h
  | changePw e o2 n => exact WF_changePassword e o2 n s h
  | deleteU uid => exact WF_deleteUser uid s h
  | issueReset e t n ok => exact WF_sendPasswordResetToken e t n ok s h
  | resetPw e t np n ok => exact WF_resetPassword e t np n ok s h

theorem WF_runOps (ops : List Op) (s : Store) (h : WF s) : WF (runOps ops s) := by
  induction ops generalizing s with
  | nil => exact h
  | cons op rest ih => exact ih (stepOp op s) (WF_stepOp op s h)

/-! ### The claims -/

/-- C1: Exactly-one-authentication-mode invariant.  For every sequence of
engine operations starting from a store whose records each have exactly
one authentication mode (and, as DynamoDB guarantees, pairwise-distinct
primary keys), every record of the resulting store still has exactly one
mode — `password_hash` set with `provider` absent, or `provider` set with
`password_hash` absent; no operation ever sets the other mode on an
existing record after creation. -/
theorem one_mode_invariant (ops : List Op) (store : Store)
    (hmode : ∀ it ∈ store, modeOK it) (hkeys : (store.map uidOf).Nodup) :
    ∀ it ∈ runOps ops store, modeOK it :=
  (WF_runOps ops store ⟨hmode, hkeys⟩).1

/-- Witness for C1 at a concrete operation sequence exercising
registration, OAuth sign-in, profile update, password change and the
full reset flow, starting from the empty store. -/
theorem one_mode_invariant_witness :
    (∀ it ∈ ([] : Store), modeOK it) ∧ (([] : Store).map uidOf).Nodup ∧
    ∀ it ∈ runOps
      [Op.register "alice" "pw1" "a@x.com" "id1",
       Op.handleOauth "carol" "google" "c@x.com" "id3",
       Op.setInfo "id1" [("username", "al")],
       Op.changePw "a@x.com" "pw1" "pw2",
       Op.issueReset "a@x.com" "tok" 5 true,
       Op.resetPw "a@x.com" "tok" "pw3" 5 true] [], modeOK it :=
  ⟨by simp, by simp, one_mode_invariant _ [] (by simp) (by simp)⟩

/-- C2: Authenticate existence-hiding.  Whenever every record carrying
the given email is a password account whose hash does not verify the
supplied password — which covers both "no record matches the email"
(vacuously) and "password mismatch" — Authenticate fails with the single
generic `InvalidCredentials` failure: identical 401 status and identical
message in both cases, never a distinct early "email not found" failure. -/
theorem authenticate_existence_hiding (email password : String) (store : Store)
    (h : ∀ it ∈ store, getAttr it "email" = some email →
      getAttr it "provider" = none ∧
      ∃ ph, getAttr it "password_hash" = some ph ∧ bcryptVerify password ph = false) :
    authenticateUser TABLE_NAME email password store =
      .error ⟨"Authentication Error (Incorrect email or password)", 401⟩ := by
  unfold authenticateUser
  rw [validateTableName_ok]
  exact authScan_fail h

/-- Witness for C2: the same 401 error for a wrong password and for an
unknown email against the same store. -/
theorem authenticate_existence_hiding_witness :
    authenticateUser TABLE_NAME "a@x.com" "bad"
      [[("user_id", "id1"), ("username", "alice"), ("password_hash", hashFn "pw1"),
        ("email", "a@x.com")]] =
      .error ⟨"Authentication Error (Incorrect email or password)", 401⟩ ∧
    authenticateUser TABLE_NAME "nobody@x.com" "pw1"
      [[("user_id", "id1"), ("username", "alice"), ("password_hash", hashFn "pw1"),
        ("email", "a@x.com")]] =
      .error ⟨"Authentication Error (Incorrect email or password)", 401⟩ := by
  constructor
  · refine authenticate_existence_hiding _ _ _ ?_
    intro it hit he
    rw [List.mem_singleton] at hit
    subst hit
    exact ⟨rfl, hashFn "pw1", rfl, by decide⟩
  · refine authenticate_existence_hiding _ _ _ ?_
    intro it hit he
    rw [List.mem_singleton] at hit
    subst hit
    exact absurd he (by decide)

/-- C9: Collection-name handling.  Every operation addressed with the
single configured collection name never fails on account of the name
(the name check passes); any other name fails every operation uniformly
— the same 400 "Invalid Table Name" error with the store untouched,
independent of all per-call data and state — i.e. it is a configuration
error, not a per-call error. -/
theorem collection_name_config_error :
    validateTableName TABLE_NAME = .ok () ∧
    ∀ table, table ≠ TABLE_NAME →
      ∀ (username password email newId provider user_id fields oldPassword newPassword
          token : String) (now : Nat) (notifyOk : Bool)
        (info : List (String × String)) (store : Store),
        registerUser table username password email newId store =
          (.error ⟨"Invalid Table Name", 400⟩, store) ∧
        authenticateUser table email password store = .error ⟨"Invalid Table Name", 400⟩ ∧
        authenticateOauthUser table username provider email newId store =
          (.error ⟨"Invalid Table Name", 400⟩, store) ∧
        setUserInfo table user_id info store = (.error ⟨"Invalid Table Name", 400⟩, store) ∧
        getUserInfo table user_id fields store = .error ⟨"Invalid Table Name", 400⟩ ∧
        changePassword table email oldPassword newPassword store =
          (.error ⟨"Invalid Table Name", 400⟩, store) ∧
        deleteUser table user_id store = (.error ⟨"Invalid Table Name", 400⟩, store) ∧
        sendPasswordResetToken table email token now notifyOk store =
          (.error ⟨"Invalid Table Name", 400⟩, store) ∧
        resetPassword table email token newPassword now notifyOk store =
          (.error ⟨"Invalid Table Name", 400⟩, store) := by
  refine ⟨rfl, ?_⟩
  intro table h username password email newId provider user_id fields oldPassword
    newPassword token now notifyOk info store
  have hv : validateTableName table = .error ⟨"Invalid Table Name", 400⟩ := by
    simp [validateTableName, h]
  refine ⟨?_, ?_, ?_, ?_, ?_, ?_, ?_, ?_, ?_⟩ <;>
    simp [registerUser, authenticateUser, authenticateOauthUser, setUserInfo, getUserInfo,
      changePassword, deleteUser, sendPasswordResetToken, resetPassword, hv]

/-- Witness for C9 at the concrete misconfigured name "users". -/
theorem collection_name_config_error_witness :
    ("users" : String) ≠ TABLE_NAME ∧
    registerUser "users" "alice" "pw1" "a@x.com" "id1" [] =
      (.error ⟨"Invalid Table Name", 400⟩, []) ∧
    resetPassword "users" "a@x.com" "tok" "pw" 0 true [] =
      (.error ⟨"Invalid Table Name", 400⟩, []) := by
  refine ⟨by decide, ?_, ?_⟩
  · exact (collection_name_config_error.2 "users" (by decide) "alice" "pw1" "a@x.com"
      "id1" "" "" "" "" "pw" "tok" 0 true [] []).1
  · exact (collection_name_config_error.2 "users" (by decide) "alice" "pw1" "a@x.com"
      "id1" "" "" "" "" "pw" "tok" 0 true [] []).2.2.2.2.2.2.2.2

theorem checkFields_append_invalid (pre post : List (String × String)) (f v : String)
    (hpre : ∀ p ∈ pre, jsToLower p.1 ∈ ADDITIONAL_USER_FIELDS)
    (hf : jsToLower f ∉ ADDITIONAL_USER_FIELDS) :
    checkFields (pre ++ (f, v) :: post) =
      .error ⟨"User field \x27" ++ f ++ "\x27 is invalid", 400⟩ := by
  induction pre with
  | nil => simp [checkFields, hf]
  | cons p rest ih =>
    obtain ⟨k, w⟩ := p
    rw [List.cons_append, checkFields, if_pos (hpre (k, w) (List.mem_cons_self _ _))]
    exact ih fun q hq => hpre q (List.mem_cons_of_mem _ hq)

/-- C7: SetProfile all-or-nothing validation.  If the field map contains
any key outside the mutable-field allow-list (case-insensitively), even
after arbitrarily many allowed keys, SetProfile fails 400 naming that
key and the store is completely unchanged — no field is written. -/
theorem setProfile_all_or_nothing (user_id : String) (pre post : List (String × String))
    (f v : String) (store : Store)
    (hpre : ∀ p ∈ pre, jsToLower p.1 ∈ ADDITIONAL_USER_FIELDS)
    (hf : jsToLower f ∉ ADDITIONAL_USER_FIELDS) :
    setUserInfo TABLE_NAME user_id (pre ++ (f, v) :: post) store =
      (.error ⟨"User field \x27" ++ f ++ "\x27 is invalid", 400⟩, store) := by
  unfold setUserInfo
  simp only [validateTableName_ok, checkFields_append_invalid pre post f v hpre hf]

/-- Witness for C7: a map with an allowed field and a disallowed field
leaves a one-record store unchanged and fails 400. -/
theorem setProfile_all_or_nothing_witness :
    setUserInfo TABLE_NAME "id1" [("username", "al"), ("address", "x")]
      [[("user_id", "id1"), ("username", "alice"), ("password_hash", hashFn "pw1"),
        ("email", "a@x.com")]] =
      (.error ⟨"User field \x27address\x27 is invalid", 400⟩,
       [[("user_id", "id1"), ("username", "alice"), ("password_hash", hashFn "pw1"),
         ("email", "a@x.com")]]) :=
  setProfile_all_or_nothing "id1" [("username", "al")] [] "address" "x" _
    (by decide) (by decide)

/-- C3 counterexample: with a store containing a record whose
(syntactically invalid) email `""` equals the registration email,
Register fails 400 "Invalid Email" — not `Conflict` 409 as the claim
states for every store containing a record with the given email. -/
theorem register_conflict_counterexample :
    (∃ it ∈ ([[("user_id", "x"), ("provider", "google"), ("email", "")]] : Store),
      getAttr it "email" = some "") ∧
    registerUser TABLE_NAME "u" "p" "" "id9"
      [[("user_id", "x"), ("provider", "google"), ("email", "")]] =
      (.error ⟨"Invalid Email", 400⟩,
       [[("user_id", "x"), ("provider", "google"), ("email", "")]]) ∧
    ∀ m : String, (registerUser TABLE_NAME "u" "p" "" "id9"
      [[("user_id", "x"), ("provider", "google"), ("email", "")]]).1 ≠
      .error ⟨m, 409⟩ := by
  refine ⟨⟨_, List.mem_singleton_self _, rfl⟩, rfl, ?_⟩
  intro m h
  have h2 : (Except.error ⟨"Invalid Email", 400⟩ : Except Err String) = .error ⟨m, 409⟩ := h
  simp [Err.mk.injEq] at h2

/-- C3 (amended): for every store state containing a record with the
given email, **provided the email is syntactically valid** (otherwise
Register fails `InvalidInput` before the scan), Register fails `Conflict`
409 with the store unchanged, the message naming the existing record's
provider when it is an OAuth account; and whenever a registration
succeeds, no record with that email previously existed, so sequential
registration never produces two records with the same email. -/
theorem register_conflict_amended :
    (∀ (username password email newId : String) (pre post : Store) (it : Item),
      validateEmail email = true →
      (∀ o ∈ pre, getAttr o "email" ≠ some email) →
      getAttr it "email" = some email →
      registerUser TABLE_NAME username password email newId (pre ++ it :: post) =
        (.error ⟨"Email has been taken." ++
          (if truthy (getAttr it "provider") then
            " Did you mean to sign in using " ++ showAttr (getAttr it "provider") ++ "?"
          else ""), 409⟩, pre ++ it :: post)) ∧
    (∀ (username password email newId id2 : String) (store : Store),
      (registerUser TABLE_NAME username password email newId store).1 = .ok id2 →
      ∀ o ∈ store, getAttr o "email" ≠ some email) := by
  constructor
  · intro username password email newId pre post it hv hpre hit
    unfold registerUser
    simp only [validateTableName_ok, hv, Bool.not_true, Bool.false_eq_true, if_false]
    rw [registerScan_append hpre, registerScan, if_pos hit]
  · intro username password email newId id2 store h o ho
    unfold registerUser at h
    simp only [validateTableName_ok] at h
    cases hb : validateEmail email with
    | false => simp only [hb, Bool.not_false, if_true] at h; exact absurd h (by simp)
    | true =>
      simp only [hb, Bool.not_true, Bool.false_eq_true, if_false] at h
      cases hscan : registerScan email store with
      | error err => rw [hscan] at h; exact absurd h (by simp)
      | ok u2 =>
        cases u2
        exact registerScan_ok_inv hscan o ho

/-- Witness for C3's amended theorem: registering an email held by an
OAuth record fails 409 naming google, and a successful registration had
no prior record with the email. -/
theorem register_conflict_amended_witness :
    registerUser TABLE_NAME "bob" "pw2" "c@x.com" "id4"
      [[("user_id", "id3"), ("username", "carol"), ("provider", "google"),
        ("email", "c@x.com")]] =
      (.error ⟨"Email has been taken. Did you mean to sign in using google?", 409⟩,
       [[("user_id", "id3"), ("username", "carol"), ("provider", "google"),
         ("email", "c@x.com")]]) :=
  register_conflict_amended.1 "bob" "pw2" "c@x.com" "id4" [] _ _ (by decide)
    (by intro o ho; exact absurd ho (List.not_mem_nil o)) rfl

/-- C6: AuthenticateOrRegisterOAuth case analysis.  At the first record
matching the email: a password account fails `WrongMethod` 403; an OAuth
account with a different provider fails `WrongProvider` 403 naming the
first provider; a matching provider returns the existing `user_id` with
the store unmodified; and with no matching record a fresh OAuth record
is created and its fresh `user_id` returned. -/
theorem oauth_case_analysis :
    (∀ (username provider email newId : String) (pre post : Store) (it : Item)
      (hv : String),
      (∀ o ∈ pre, getAttr o "email" ≠ some email) →
      getAttr it "email" = some email →
      getAttr it "password_hash" = some hv → hv ≠ "" →
      authenticateOauthUser TABLE_NAME username provider email newId (pre ++ it :: post) =
        (.error ⟨"You signed up with a password. Please sign in with your password instead.",
          403⟩, pre ++ it :: post)) ∧
    (∀ (username provider email newId : String) (pre post : Store) (it : Item)
      (p : String),
      (∀ o ∈ pre, getAttr o "email" ≠ some email) →
      getAttr it "email" = some email →
      getAttr it "password_hash" = none →
      getAttr it "provider" = some p → p ≠ provider →
      authenticateOauthUser TABLE_NAME username provider email newId (pre ++ it :: post) =
        (.error ⟨"You first signed up via " ++ p ++ ". Please use that provider instead.",
          403⟩, pre ++ it :: post)) ∧
    (∀ (username provider email newId : String) (pre post : Store) (it : Item)
      (uid : String),
      (∀ o ∈ pre, getAttr o "email" ≠ some email) →
      getAttr it "email" = some email →
      getAttr it "password_hash" = none →
      getAttr it "provider" = some provider →
      uidOf it = some uid →
      authenticateOauthUser TABLE_NAME username provider email newId (pre ++ it :: post) =
        (.ok (some uid), pre ++ it :: post)) ∧
    (∀ (username provider email newId : String) (store : Store),
      (∀ o ∈ store, getAttr o "email" ≠ some email) →
      (∀ o ∈ store, uidOf o ≠ some newId) →
      authenticateOauthUser TABLE_NAME username provider email newId store =
        (.ok (some newId), store ++
          [[("user_id", newId), ("username", username), ("provider", provider),
            ("email", email)]])) := by
  refine ⟨?_, ?_, ?_, ?_⟩
  · intro username provider email newId pre post it hv hpre hit hph hne
    have ht : truthy (getAttr it "password_hash") = true := by
      rw [hph]
      simp [truthy, hne]
    unfold authenticateOauthUser
    simp only [validateTableName_ok, findFirstEmail_decomp post hpre hit, ht, if_true]
  · intro username provider email newId pre post it p hpre hit hph hp hne
    have ht : truthy (getAttr it "password_hash") = false := by
      rw [hph]
      rfl
    have hne2 : ¬(getAttr it "provider" = some provider) := by
      rw [hp]
      simp [hne]
    unfold authenticateOauthUser
    simp only [validateTableName_ok, findFirstEmail_decomp post hpre hit, ht,
      Bool.false_eq_true, if_false, hne2, hp, showAttr]
    rw [if_neg (fun hc => hne (Option.some.inj hc))]
  · intro username provider email newId pre post it uid hpre hit hph hp huid
    have ht : truthy (getAttr it "password_hash") = false := by
      rw [hph]
      rfl
    unfold authenticateOauthUser
    simp only [validateTableName_ok, findFirstEmail_decomp post hpre hit, ht,
      Bool.false_eq_true, if_false, hp, if_pos, huid]
  · intro username provider email newId store hemail hfresh
    unfold authenticateOauthUser
    simp only [validateTableName_ok, findFirstEmail_none hemail, databaseAddUser_snd_oauth]
    have hany : store.any (fun o => uidOf o =
        uidOf [("user_id", newId), ("username", username), ("provider", provider),
          ("email", email)]) = false := by
      rw [List.any_eq_false]
      intro o ho
      simp only [decide_eq_true_eq]
      exact hfresh o ho
    unfold putItem
    rw [hany]
    simp only [Bool.false_eq_true, if_false]
    rfl

/-- Witness for C6 at a concrete store: idempotent OAuth sign-in with a
matching provider returns the existing id without modifying the store. -/
theorem oauth_case_analysis_witness :
    authenticateOauthUser TABLE_NAME "carol" "google" "c@x.com" "id4"
      [[("user_id", "id3"), ("username", "carol"), ("provider", "google"),
        ("email", "c@x.com")]] =
      (.ok (some "id3"),
       [[("user_id", "id3"), ("username", "carol"), ("provider", "google"),
         ("email", "c@x.com")]]) :=
  oauth_case_analysis.2.2.1 "carol" "google" "c@x.com" "id4" [] _ _ "id3"
    (by intro o ho; exact absurd ho (List.not_mem_nil o)) rfl rfl rfl rfl

/-- C10: case-insensitive validation, case-sensitive access.  The
allowed field "username" supplied as "Username" passes SetProfile
validation but is written as a distinct attribute "Username", leaving
the canonical "username" attribute untouched; GetProfile on "Username"
also passes validation, projects the original casing and fails 400 as
"uninitialised" even though the record's lowercase field is set. -/
theorem case_insensitive_validation_case_sensitive_access
    (uid w v : String) (pre post : Store) (it : Item)
    (hpre : ∀ o ∈ pre, uidOf o ≠ some uid)
    (huid : uidOf it = some uid)
    (hU : getAttr it "Username" = none)
    (hu : getAttr it "username" = some v) :
    setUserInfo TABLE_NAME uid [("Username", w)] (pre ++ it :: post) =
      (.ok (), editApply (pre ++ it :: post) uid [("Username", w)]) ∧
    getAttr (setFields it [("Username", w)]) "username" = some v ∧
    getAttr (setFields it [("Username", w)]) "Username" = some w ∧
    getUserInfo TABLE_NAME uid "Username" (pre ++ it :: post) =
      .error ⟨"Uninitialised value/s: \x27Username\x27", 400⟩ := by
  have hfind : dbFindById (pre ++ it :: post) uid = some it := by
    unfold dbFindById
    rw [find?_append_none _ (fun o ho => by simp [hpre o ho]) _]
    simp [List.find?, huid]
  refine ⟨?_, ?_, ?_, ?_⟩
  · unfold setUserInfo
    have hc : checkFields [("Username", w)] = .ok () := by
      rw [checkFields, if_pos (show jsToLower "Username" ∈ ADDITIONAL_USER_FIELDS by decide)]
      rfl
    have hany : (pre ++ it :: post).any (fun o => uidOf o = some uid) = true := by
      rw [List.any_eq_true]
      exact ⟨it, by simp, by simp [huid]⟩
    simp only [validateTableName_ok, hc, databaseEditUser, List.isEmpty_cons, hany, if_true,
      Bool.false_eq_true, if_false]
  · rw [setFields, setFields,
      getAttr_setAttr_ne it w (show "username" ≠ "Username" by decide)]
    exact hu
  · rw [setFields, setFields, getAttr_setAttr_self]
  · unfold getUserInfo
    have hsplit : ((jsSplit ',' "Username").map jsTrim) = ["Username"] := rfl
    have hcr : checkRetrievable ["Username"] = .ok () := by
      rw [checkRetrievable,
        if_pos (show jsToLower "Username" ∈ RETRIEVABLE_USER_FIELDS by decide)]
      rfl
    have hproj : projectItem it ["Username"] = [] := by
      simp [projectItem, hU]
    simp only [validateTableName_ok, hsplit, hcr, hfind, hproj, List.isEmpty_nil, if_true]
    rfl

/-- Witness for C10 at a concrete one-record store. -/
theorem case_insensitive_casing_witness :
    setUserInfo TABLE_NAME "id1" [("Username", "al2")]
      [[("user_id", "id1"), ("username", "alice"), ("password_hash", hashFn "pw1"),
        ("email", "a@x.com")]] =
      (.ok (), editApply
        [[("user_id", "id1"), ("username", "alice"), ("password_hash", hashFn "pw1"),
          ("email", "a@x.com")]] "id1" [("Username", "al2")]) ∧
    getUserInfo TABLE_NAME "id1" "Username"
      [[("user_id", "id1"), ("username", "alice"), ("password_hash", hashFn "pw1"),
        ("email", "a@x.com")]] =
      .error ⟨"Uninitialised value/s: \x27Username\x27", 400⟩ := by
  have h := case_insensitive_validation_case_sensitive_access "id1" "al2" "alice" [] []
    [("user_id", "id1"), ("username", "alice"), ("password_hash", hashFn "pw1"),
     ("email", "a@x.com")]
    (by intro o ho; exact absurd ho (List.not_mem_nil o)) rfl rfl rfl
  exact ⟨h.1, h.2.2.2⟩

/-- The item-level function applied by `editApply` (proof-layer name). -/
def editFn (uid : String) (fields : List (String × String)) (o : Item) : Item :=
  if uidOf o = some uid then setFields o fields else o

theorem editApply_eq_map (s : Store) (uid : String) (fields : List (String × String)) :
    editApply s uid fields = s.map (editFn uid fields) := rfl

theorem editFn_getAttr_not_mem (uid : String) (fields : List (String × String))
    (o : Item) {k : String} (h : ∀ p ∈ fields, p.1 ≠ k) :
    getAttr (editFn uid fields o) k = getAttr o k := by
  unfold editFn
  split
  · exact getAttr_setFields_not_mem fields o h
  · rfl

theorem encTime_ne_empty (n : Nat) : encTime (n + 1) ≠ "" := by
  intro h
  have h2 : List.replicate (n + 1) 'x' = ([] : List Char) := congrArg String.data h
  simp at h2

theorem decTime_encTime (n : Nat) : decTime (encTime (n + 1)) = some (n + 1) := by
  unfold decTime encTime
  rw [if_pos]
  · simp
  · rw [Bool.and_eq_true]
    constructor
    · simp [List.replicate_succ]
    · rw [List.all_eq_true]
      intro c hc
      simp [List.eq_of_mem_replicate hc]

/-- C4: ResetPassword token-check effects.  For a password-account
record with a pending reset (both reset fields non-empty) and a new
password different from the current one: if the expiry has passed, the
call clears both reset fields and fails 400 "Invalid Token"; if not
expired but the supplied token does not verify against the stored hash,
the call fails 400 "Invalid Token" with the store completely unchanged
(no clearing on mismatch). -/
theorem resetPassword_token_checks
    (email token newPassword : String) (now : Nat) (notifyOk : Bool)
    (pre post : Store) (it : Item) (uid ph rtv tev : String)
    (hv : validateEmail email = true)
    (hpre : ∀ o ∈ pre, getAttr o "email" ≠ some email)
    (hit : getAttr it "email" = some email)
    (hprov : truthy (getAttr it "provider") = false)
    (hph : getAttr it "password_hash" = some ph)
    (hbv : bcryptVerify newPassword ph = false)
    (hrt : getAttr it "resetToken" = some rtv) (hrtne : rtv ≠ "")
    (hte : getAttr it "tokenExpiry" = some tev) (htene : tev ≠ "")
    (huid : uidOf it = some uid) :
    (expired now tev = true →
      resetPassword TABLE_NAME email token newPassword now notifyOk (pre ++ it :: post) =
        (.error ⟨"Invalid Token", 400⟩,
         editApply (pre ++ it :: post) uid [("resetToken", ""), ("tokenExpiry", "")])) ∧
    (expired now tev = false → bcryptVerify token rtv = false →
      resetPassword TABLE_NAME email token newPassword now notifyOk (pre ++ it :: post) =
        (.error ⟨"Invalid Token", 400⟩, pre ++ it :: post)) := by
  have hcond : ¬(some rtv = (none : Option String) ∨ some tev = (none : Option String) ∨
      some rtv = some "" ∨ some tev = some "") := by
    simp [hrtne, htene]
  have hany : (pre ++ it :: post).any (fun o => uidOf o = some uid) = true := by
    rw [List.any_eq_true]
    exact ⟨it, by simp, by simp [huid]⟩
  constructor
  · intro hexp
    unfold resetPassword
    simp only [validateTableName_ok, hv, Bool.not_true, Bool.false_eq_true, if_false,
      findFirstEmail_decomp post hpre hit, hprov, hph, hbv, hrt, hte, hcond,
      Option.getD_some, hexp, if_true, huid, databaseEditUser, List.isEmpty_cons, hany]
  · intro hexp htok
    unfold resetPassword
    simp only [validateTableName_ok, hv, Bool.not_true, Bool.false_eq_true, if_false,
      findFirstEmail_decomp post hpre hit, hprov, hph, hbv, hrt, hte, hcond,
      Option.getD_some, hexp, htok, Bool.not_false, if_true]

/-- Witness for C4: expiry clears the pending-reset fields, a wrong
token before expiry leaves the store untouched. -/
theorem resetPassword_token_checks_witness :
    resetPassword TABLE_NAME "a@x.com" "tok" "pw9" 7 true
      [[("user_id", "id1"), ("username", "alice"), ("password_hash", hashFn "pw1"),
        ("email", "a@x.com"), ("resetToken", hashFn "tok"), ("tokenExpiry", encTime 6)]] =
      (.error ⟨"Invalid Token", 400⟩,
       editApply
         [[("user_id", "id1"), ("username", "alice"), ("password_hash", hashFn "pw1"),
           ("email", "a@x.com"), ("resetToken", hashFn "tok"), ("tokenExpiry", encTime 6)]]
         "id1" [("resetToken", ""), ("tokenExpiry", "")]) ∧
    resetPassword TABLE_NAME "a@x.com" "bad" "pw9" 5 true
      [[("user_id", "id1"), ("username", "alice"), ("password_hash", hashFn "pw1"),
        ("email", "a@x.com"), ("resetToken", hashFn "tok"), ("tokenExpiry", encTime 6)]] =
      (.error ⟨"Invalid Token", 400⟩,
       [[("user_id", "id1"), ("username", "alice"), ("password_hash", hashFn "pw1"),
         ("email", "a@x.com"), ("resetToken", hashFn "tok"), ("tokenExpiry", encTime 6)]]) := by
  constructor
  · exact (resetPassword_token_checks "a@x.com" "tok" "pw9" 7 true [] []
      [("user_id", "id1"), ("username", "alice"), ("password_hash", hashFn "pw1"),
       ("email", "a@x.com"), ("resetToken", hashFn "tok"), ("tokenExpiry", encTime 6)]
      "id1" (hashFn "pw1") (hashFn "tok") (encTime 6)
      (by decide) (by intro o ho; exact absurd ho (List.not_mem_nil o)) rfl rfl rfl
      (by decide) rfl (by decide) rfl (by decide) rfl).1 (by decide)
  · exact (resetPassword_token_checks "a@x.com" "bad" "pw9" 5 true [] []
      [("user_id", "id1"), ("username", "alice"), ("password_hash", hashFn "pw1"),
       ("email", "a@x.com"), ("resetToken", hashFn "tok"), ("tokenExpiry", encTime 6)]
      "id1" (hashFn "pw1") (hashFn "tok") (encTime 6)
      (by decide) (by intro o ho; exact absurd ho (List.not_mem_nil o)) rfl rfl rfl
      (by decide) rfl (by decide) rfl (by decide) rfl).2 (by decide) (by decide)

/-- Shared helper: the fully-checked path of `resetPassword` — the
password write happens as one update (reset fields cleared, new hash
written) and only then is the notification attempted, whose outcome
alone decides the returned result. -/
theorem resetPassword_checked_path
    (email token newPassword : String) (now : Nat) (notifyOk : Bool)
    (pre post : Store) (it : Item) (uid ph rtv tev : String)
    (hv : validateEmail email = true)
    (hpre : ∀ o ∈ pre, getAttr o "email" ≠ some email)
    (hit : getAttr it "email" = some email)
    (hprov : truthy (getAttr it "provider") = false)
    (hph : getAttr it "password_hash" = some ph)
    (hbv : bcryptVerify newPassword ph = false)
    (hrt : getAttr it "resetToken" = some rtv) (hrtne : rtv ≠ "")
    (hte : getAttr it "tokenExpiry" = some tev) (htene : tev ≠ "")
    (hexp : expired now tev = false)
    (htok : bcryptVerify token rtv = true)
    (huid : uidOf it = some uid) (hu0 : uid ≠ "") :
    resetPassword TABLE_NAME email token newPassword now notifyOk (pre ++ it :: post) =
      ((if notifyOk then .ok () else .error ⟨"Email failed to send", 500⟩),
       editApply (pre ++ it :: post) uid
         [("resetToken", ""), ("tokenExpiry", ""), ("password_hash", hashFn newPassword)]) := by
  have hcond : ¬(some rtv = (none : Option String) ∨ some tev = (none : Option String) ∨
      some rtv = some "" ∨ some tev = some "") := by
    simp [hrtne, htene]
  have hany : (pre ++ it :: post).any (fun o => uidOf o = some uid) = true := by
    rw [List.any_eq_true]
    exact ⟨it, by simp, by simp [huid]⟩
  have husome : ¬(some uid = some "") := by simp [hu0]
  unfold resetPassword
  simp only [validateTableName_ok, hv, Bool.not_true, Bool.false_eq_true, if_false,
    findFirstEmail_decomp post hpre hit, hprov, hph, hbv, hrt, hte, hcond,
    Option.getD_some, hexp, htok, Bool.not_true, if_false, huid, husome,
    databaseEditUser, List.isEmpty_cons, hany, if_true, sendPasswordResetEmail]
  cases notifyOk <;> simp

/-- C8: ResetPassword notification coupling.  With every token check
passing but the notifier failing, the call fails 500 "Email failed to
send" even though the password change — reset fields cleared and the
new `password_hash` written as one update — has already been persisted:
every record carrying the user's key in the final store holds the new
hash. -/
theorem resetPassword_notification_coupling
    (email token newPassword : String) (now : Nat)
    (pre post : Store) (it : Item) (uid ph rtv tev : String)
    (hv : validateEmail email = true)
    (hpre : ∀ o ∈ pre, getAttr o "email" ≠ some email)
    (hit : getAttr it "email" = some email)
    (hprov : truthy (getAttr it "provider") = false)
    (hph : getAttr it "password_hash" = some ph)
    (hbv : bcryptVerify newPassword ph = false)
    (hrt : getAttr it "resetToken" = some rtv) (hrtne : rtv ≠ "")
    (hte : getAttr it "tokenExpiry" = some tev) (htene : tev ≠ "")
    (hexp : expired now tev = false)
    (htok : bcryptVerify token rtv = true)
    (huid : uidOf it = some uid) (hu0 : uid ≠ "") :
    resetPassword TABLE_NAME email token newPassword now false (pre ++ it :: post) =
      (.error ⟨"Email failed to send", 500⟩,
       editApply (pre ++ it :: post) uid
         [("resetToken", ""), ("tokenExpiry", ""), ("password_hash", hashFn newPassword)]) ∧
    ∀ it2 ∈ (resetPassword TABLE_NAME email token newPassword now false
        (pre ++ it :: post)).2,
      uidOf it2 = some uid → getAttr it2 "password_hash" = some (hashFn newPassword) := by
  have hmain := resetPassword_checked_path email token newPassword now false
    pre post it uid ph rtv tev hv hpre hit hprov hph hbv hrt hrtne hte htene hexp htok
    huid hu0
  rw [if_neg (by simp)] at hmain
  refine ⟨hmain, ?_⟩
  intro it2 hit2 huid2
  rw [hmain] at hit2
  rw [editApply_eq_map] at hit2
  obtain ⟨o, ho, rfl⟩ := List.mem_map.1 hit2
  unfold editFn at huid2 ⊢
  by_cases huo : uidOf o = some uid
  · rw [if_pos huo]
    rw [setFields, setFields, setFields, setFields, getAttr_setAttr_self]
  · rw [if_neg huo] at huid2
    exact absurd huid2 huo

/-- Witness for C8: all checks pass, the notifier fails, the call
returns 500 while the new password hash is already in the store. -/
theorem resetPassword_notification_coupling_witness :
    resetPassword TABLE_NAME "a@x.com" "tok" "pw9" 5 false
      [[("user_id", "id1"), ("username", "alice"), ("password_hash", hashFn "pw1"),
        ("email", "a@x.com"), ("resetToken", hashFn "tok"), ("tokenExpiry", encTime 6)]] =
      (.error ⟨"Email failed to send", 500⟩,
       editApply
         [[("user_id", "id1"), ("username", "alice"), ("password_hash", hashFn "pw1"),
           ("email", "a@x.com"), ("resetToken", hashFn "tok"), ("tokenExpiry", encTime 6)]]
         "id1" [("resetToken", ""), ("tokenExpiry", ""),
           ("password_hash", hashFn "pw9")]) := by
  exact (resetPassword_notification_coupling "a@x.com" "tok" "pw9" 5 [] []
    [("user_id", "id1"), ("username", "alice"), ("password_hash", hashFn "pw1"),
     ("email", "a@x.com"), ("resetToken", hashFn "tok"), ("tokenExpiry", encTime 6)]
    "id1" (hashFn "pw1") (hashFn "tok") (encTime 6)
    (by decide) (by intro o ho; exact absurd ho (List.not_mem_nil o)) rfl rfl rfl
    (by decide) rfl (by decide) rfl (by decide) (by decide) (by decide) rfl
    (by decide)).1

theorem fields_issue_ne (a b k : String) (h1 : "resetToken" ≠ k) (h2 : "tokenExpiry" ≠ k) :
    ∀ p ∈ ([("resetToken", a), ("tokenExpiry", b)] : List (String × String)), p.1 ≠ k := by
  intro p hp
  rcases List.mem_cons.1 hp with rfl | hp2
  · exact h1
  · rw [List.mem_singleton] at hp2
    subst hp2
    exact h2

theorem fields_resetpw_ne (v k : String) (h1 : "resetToken" ≠ k) (h2 : "tokenExpiry" ≠ k)
    (h3 : "password_hash" ≠ k) :
    ∀ p ∈ ([("resetToken", ""), ("tokenExpiry", ""), ("password_hash", v)] :
      List (String × String)), p.1 ≠ k := by
  intro p hp
  rcases List.mem_cons.1 hp with rfl | hp2
  · exact h1
  · rcases List.mem_cons.1 hp2 with rfl | hp3
    · exact h2
    · rw [List.mem_singleton] at hp3
      subst hp3
      exact h3

theorem setFields_issue_attrs (o : Item) (a b : String) :
    getAttr (setFields o [("resetToken", a), ("tokenExpiry", b)]) "resetToken" = some a ∧
    getAttr (setFields o [("resetToken", a), ("tokenExpiry", b)]) "tokenExpiry" = some b := by
  constructor
  · rw [setFields, setFields, setFields,
      getAttr_setAttr_ne _ b (show ("resetToken" : String) ≠ "tokenExpiry" by decide),
      getAttr_setAttr_self]
  · rw [setFields, setFields, setFields, getAttr_setAttr_self]

theorem setFields_resetpw_attrs (o : Item) (v : String) :
    getAttr (setFields o [("resetToken", ""), ("tokenExpiry", ""), ("password_hash", v)])
      "resetToken" = some "" ∧
    getAttr (setFields o [("resetToken", ""), ("tokenExpiry", ""), ("password_hash", v)])
      "tokenExpiry" = some "" ∧
    getAttr (setFields o [("resetToken", ""), ("tokenExpiry", ""), ("password_hash", v)])
      "password_hash" = some v := by
  refine ⟨?_, ?_, ?_⟩
  · rw [setFields, setFields, setFields, setFields,
      getAttr_setAttr_ne _ v (show ("resetToken" : String) ≠ "password_hash" by decide),
      getAttr_setAttr_ne _ "" (show ("resetToken" : String) ≠ "tokenExpiry" by decide),
      getAttr_setAttr_self]
  · rw [setFields, setFields, setFields, setFields,
      getAttr_setAttr_ne _ v (show ("tokenExpiry" : String) ≠ "password_hash" by decide),
      getAttr_setAttr_self]
  · rw [setFields, setFields, setFields, setFields, getAttr_setAttr_self]

/-- `sendPasswordResetToken` success path: stores the token hash and the
one-hour expiry for the matched password account and returns the
plaintext token. -/
theorem sendPasswordResetToken_success
    (email token : String) (now : Nat)
    (pre post : Store) (it : Item) (uid : String)
    (hv : validateEmail email = true)
    (hpre : ∀ o ∈ pre, getAttr o "email" ≠ some email)
    (hit : getAttr it "email" = some email)
    (hprov : truthy (getAttr it "provider") = false)
    (huid : uidOf it = some uid) (hu0 : uid ≠ "") :
    sendPasswordResetToken TABLE_NAME email token now true (pre ++ it :: post) =
      (.ok token, editApply (pre ++ it :: post) uid
        [("resetToken", hashFn token), ("tokenExpiry", encTime (now + 1))]) := by
  have hany : (pre ++ it :: post).any (fun o => uidOf o = some uid) = true := by
    rw [List.any_eq_true]
    exact ⟨it, by simp, by simp [huid]⟩
  have husome : ¬(some uid = some "") := by simp [hu0]
  unfold sendPasswordResetToken
  simp only [validateTableName_ok, hv, Bool.not_true, Bool.false_eq_true, if_false,
    findFirstEmail_decomp post hpre hit, hprov, huid, husome, databaseEditUser,
    List.isEmpty_cons, hany, if_true, sendTokenEmail]

/-- C5: Reset round trip.  For a password account, IssueResetToken
followed immediately by ResetPassword with the returned token and a new
password different from the current one succeeds and clears both reset
fields while replacing `password_hash`; afterwards the old password
fails Authenticate with the generic 401, and a second ResetPassword with
the same token fails 400 "Invalid Token" (single-use token). -/
theorem reset_round_trip
    (email oldPassword newPassword newPassword2 token : String)
    (now now2 now3 : Nat) (notifyOk3 : Bool)
    (pre post : Store) (it : Item) (uid : String)
    (hv : validateEmail email = true)
    (hpre : ∀ o ∈ pre, getAttr o "email" ≠ some email)
    (hpost : ∀ o ∈ post, getAttr o "email" ≠ some email)
    (hit : getAttr it "email" = some email)
    (hprov : getAttr it "provider" = none)
    (hph : getAttr it "password_hash" = some (hashFn oldPassword))
    (huid : uidOf it = some uid) (hu0 : uid ≠ "")
    (hnp : newPassword ≠ oldPassword)
    (hnp2 : newPassword2 ≠ newPassword)
    (hnow : now2 < now + 1) :
    (sendPasswordResetToken TABLE_NAME email token now true (pre ++ it :: post)).1 =
      .ok token ∧
    (resetPassword TABLE_NAME email token newPassword now2 true
        (sendPasswordResetToken TABLE_NAME email token now true (pre ++ it :: post)).2).1 =
      .ok () ∧
    (∀ it2 ∈ (resetPassword TABLE_NAME email token newPassword now2 true
        (sendPasswordResetToken TABLE_NAME email token now true (pre ++ it :: post)).2).2,
      uidOf it2 = some uid →
      getAttr it2 "resetToken" = some "" ∧ getAttr it2 "tokenExpiry" = some "" ∧
      getAttr it2 "password_hash" = some (hashFn newPassword)) ∧
    authenticateUser TABLE_NAME email oldPassword
      (resetPassword TABLE_NAME email token newPassword now2 true
        (sendPasswordResetToken TABLE_NAME email token now true (pre ++ it :: post)).2).2 =
      .error ⟨"Authentication Error (Incorrect email or password)", 401⟩ ∧
    (resetPassword TABLE_NAME email token newPassword2 now3 notifyOk3
      (resetPassword TABLE_NAME email token newPassword now2 true
        (sendPasswordResetToken TABLE_NAME email token now true (pre ++ it :: post)).2).2).1 =
      .error ⟨"Invalid Token", 400⟩ := by
  have hprovt : truthy (getAttr it "provider") = false := by rw [hprov]; rfl
  have hs1 := sendPasswordResetToken_success email token now pre post it uid
    hv hpre hit hprovt huid hu0
  have hemailF1 := fields_issue_ne (hashFn token) (encTime (now + 1)) "email"
    (by decide) (by decide)
  have hprovF1 := fields_issue_ne (hashFn token) (encTime (now + 1)) "provider"
    (by decide) (by decide)
  have hphF1 := fields_issue_ne (hashFn token) (encTime (now + 1)) "password_hash"
    (by decide) (by decide)
  have huidF1 := fields_issue_ne (hashFn token) (encTime (now + 1)) "user_id"
    (by decide) (by decide)
  have hstore1 : (sendPasswordResetToken TABLE_NAME email token now true
      (pre ++ it :: post)).2 =
      pre.map (editFn uid [("resetToken", hashFn token), ("tokenExpiry", encTime (now + 1))])
      ++ setFields it [("resetToken", hashFn token), ("tokenExpiry", encTime (now + 1))] ::
      post.map (editFn uid
        [("resetToken", hashFn token), ("tokenExpiry", encTime (now + 1))]) := by
    rw [hs1]
    show editApply (pre ++ it :: post) uid _ = _
    rw [editApply_eq_map, List.map_append, List.map_cons]
    have hfit : editFn uid
        [("resetToken", hashFn token), ("tokenExpiry", encTime (now + 1))] it =
        setFields it [("resetToken", hashFn token), ("tokenExpiry", encTime (now + 1))] := by
      unfold editFn
      rw [if_pos huid]
    rw [hfit]
  have hpre1 : ∀ o ∈ pre.map (editFn uid
      [("resetToken", hashFn token), ("tokenExpiry", encTime (now + 1))]),
      getAttr o "email" ≠ some email := by
    intro o ho
    obtain ⟨o0, ho0, rfl⟩ := List.mem_map.1 ho
    rw [editFn_getAttr_not_mem uid _ o0 hemailF1]
    exact hpre o0 ho0
  have hpost1 : ∀ o ∈ post.map (editFn uid
      [("resetToken", hashFn token), ("tokenExpiry", encTime (now + 1))]),
      getAttr o "email" ≠ some email := by
    intro o ho
    obtain ⟨o0, ho0, rfl⟩ := List.mem_map.1 ho
    rw [editFn_getAttr_not_mem uid _ o0 hemailF1]
    exact hpost o0 ho0
  have hit1 : getAttr (setFields it
      [("resetToken", hashFn token), ("tokenExpiry", encTime (now + 1))]) "email" =
      some email := by
    rw [getAttr_setFields_not_mem _ _ hemailF1]
    exact hit
  have hprov1 : truthy (getAttr (setFields it
      [("resetToken", hashFn token), ("tokenExpiry", encTime (now + 1))]) "provider") =
      false := by
    rw [getAttr_setFields_not_mem _ _ hprovF1, hprov]
    rfl
  have hph1 : getAttr (setFields it
      [("resetToken", hashFn token), ("tokenExpiry", encTime (now + 1))]) "password_hash" =
      some (hashFn oldPassword) := by
    rw [getAttr_setFields_not_mem _ _ hphF1]
    exact hph
  have huid1 : uidOf (setFields it
      [("resetToken", hashFn token), ("tokenExpiry", encTime (now + 1))]) = some uid := by
    rw [uidOf_setFields _ _ huidF1]
    exact huid
  have hrt1 := (setFields_issue_attrs it (hashFn token) (encTime (now + 1))).1
  have hte1 := (setFields_issue_attrs it (hashFn token) (encTime (now + 1))).2
  have hbv1 : bcryptVerify newPassword (hashFn oldPassword) = false := by
    unfold bcryptVerify
    exact decide_eq_false fun hcontra => hnp (hashFn_inj hcontra)
  have hexp1 : expired now2 (encTime (now + 1)) = false := by
    unfold expired
    rw [decTime_encTime]
    exact decide_eq_false (Nat.not_le.2 hnow)
  have htok1 : bcryptVerify token (hashFn token) = true := by
    unfold bcryptVerify
    simp
  have hs2 := resetPassword_checked_path email token newPassword now2 true
    (pre.map (editFn uid [("resetToken", hashFn token), ("tokenExpiry", encTime (now + 1))]))
    (post.map (editFn uid [("resetToken", hashFn token), ("tokenExpiry", encTime (now + 1))]))
    (setFields it [("resetToken", hashFn token), ("tokenExpiry", encTime (now + 1))])
    uid (hashFn oldPassword) (hashFn token) (encTime (now + 1))
    hv hpre1 hit1 hprov1 hph1 hbv1 hrt1 (hashFn_ne_empty token) hte1
    (encTime_ne_empty now) hexp1 htok1 huid1 hu0
  rw [if_pos rfl] at hs2
  have hstore2 : (resetPassword TABLE_NAME email token newPassword now2 true
      (sendPasswordResetToken TABLE_NAME email token now true (pre ++ it :: post)).2).2 =
      (pre.map (editFn uid
        [("resetToken", hashFn token), ("tokenExpiry", encTime (now + 1))])).map
        (editFn uid [("resetToken", ""), ("tokenExpiry", ""),
          ("password_hash", hashFn newPassword)])
      ++ setFields (setFields it
          [("resetToken", hashFn token), ("tokenExpiry", encTime (now + 1))])
          [("resetToken", ""), ("tokenExpiry", ""), ("password_hash", hashFn newPassword)] ::
      (post.map (editFn uid
        [("resetToken", hashFn token), ("tokenExpiry", encTime (now + 1))])).map
        (editFn uid [("resetToken", ""), ("tokenExpiry", ""),
          ("password_hash", hashFn newPassword)]) := by
    rw [hstore1, hs2]
    show editApply _ uid _ = _
    rw [editApply_eq_map, List.map_append, List.map_cons]
    have hfit : editFn uid
        [("resetToken", ""), ("tokenExpiry", ""), ("password_hash", hashFn newPassword)]
        (setFields it
          [("resetToken", hashFn token), ("tokenExpiry", encTime (now + 1))]) =
        setFields (setFields it
          [("resetToken", hashFn token), ("tokenExpiry", encTime (now + 1))])
          [("resetToken", ""), ("tokenExpiry", ""),
           ("password_hash", hashFn newPassword)] := by
      unfold editFn
      rw [if_pos huid1]
    rw [hfit]
  refine ⟨?_, ?_, ?_, ?_, ?_⟩
  · rw [hs1]
  · rw [hstore1, hs2]
  · intro it2 hit2 huid2
    rw [hstore1, hs2] at hit2
    have hit2b : it2 ∈ List.map (editFn uid
        [("resetToken", ""), ("tokenExpiry", ""), ("password_hash", hashFn newPassword)])
        (pre.map (editFn uid
          [("resetToken", hashFn token), ("tokenExpiry", encTime (now + 1))])
        ++ setFields it
            [("resetToken", hashFn token), ("tokenExpiry", encTime (now + 1))] ::
        post.map (editFn uid
          [("resetToken", hashFn token), ("tokenExpiry", encTime (now + 1))])) := hit2
    obtain ⟨o, ho, rfl⟩ := List.mem_map.1 hit2b
    unfold editFn at huid2 ⊢
    by_cases huo : uidOf o = some uid
    · rw [if_pos huo]
      exact setFields_resetpw_attrs o (hashFn newPassword)
    · rw [if_neg huo] at huid2
      exact absurd huid2 huo
  · rw [hstore2]
    unfold authenticateUser
    rw [validateTableName_ok]
    refine authScan_fail ?_
    intro o ho he
    rcases List.mem_append.1 ho with h1 | h2
    · obtain ⟨o0, ho0, rfl⟩ := List.mem_map.1 h1
      rw [editFn_getAttr_not_mem uid _ o0 (fields_resetpw_ne (hashFn newPassword) "email"
        (by decide) (by decide) (by decide))] at he
      exact absurd he (hpre1 o0 ho0)
    · rcases List.mem_cons.1 h2 with rfl | h3
      · refine ⟨?_, hashFn newPassword, (setFields_resetpw_attrs _ _).2.2, ?_⟩
        · rw [getAttr_setFields_not_mem _ _ (fields_resetpw_ne (hashFn newPassword)
            "provider" (by decide) (by decide) (by decide)),
            getAttr_setFields_not_mem _ _ hprovF1]
          exact hprov
        · unfold bcryptVerify
          exact decide_eq_false fun hcontra => hnp (hashFn_inj hcontra).symm
      · obtain ⟨o0, ho0, rfl⟩ := List.mem_map.1 h3
        rw [editFn_getAttr_not_mem uid _ o0 (fields_resetpw_ne (hashFn newPassword) "email"
          (by decide) (by decide) (by decide))] at he
        exact absurd he (hpost1 o0 ho0)
  · rw [hstore2]
    have hpre2 : ∀ o ∈ (pre.map (editFn uid
        [("resetToken", hashFn token), ("tokenExpiry", encTime (now + 1))])).map
        (editFn uid [("resetToken", ""), ("tokenExpiry", ""),
          ("password_hash", hashFn newPassword)]),
        getAttr o "email" ≠ some email := by
      intro o ho
      obtain ⟨o0, ho0, rfl⟩ := List.mem_map.1 ho
      rw [editFn_getAttr_not_mem uid _ o0 (fields_resetpw_ne (hashFn newPassword) "email"
        (by decide) (by decide) (by decide))]
      exact hpre1 o0 ho0
    have hit2e : getAttr (setFields (setFields it
        [("resetToken", hashFn token), ("tokenExpiry", encTime (now + 1))])
        [("resetToken", ""), ("tokenExpiry", ""), ("password_hash", hashFn newPassword)])
        "email" = some email := by
      rw [getAttr_setFields_not_mem _ _ (fields_resetpw_ne (hashFn newPassword) "email"
        (by decide) (by decide) (by decide))]
      exact hit1
    have hprov2 : truthy (getAttr (setFields (setFields it
        [("resetToken", hashFn token), ("tokenExpiry", encTime (now + 1))])
        [("resetToken", ""), ("tokenExpiry", ""), ("password_hash", hashFn newPassword)])
        "provider") = false := by
      rw [getAttr_setFields_not_mem _ _ (fields_resetpw_ne (hashFn newPassword)
        "provider" (by decide) (by decide) (by decide)),
        getAttr_setFields_not_mem _ _ hprovF1, hprov]
      rfl
    have hph2 := (setFields_resetpw_attrs (setFields it
      [("resetToken", hashFn token), ("tokenExpiry", encTime (now + 1))])
      (hashFn newPassword)).2.2
    have hrt2 := (setFields_resetpw_attrs (setFields it
      [("resetToken", hashFn token), ("tokenExpiry", encTime (now + 1))])
      (hashFn newPassword)).1
    have hbv2 : bcryptVerify newPassword2 (hashFn newPassword) = false := by
      unfold bcryptVerify
      exact decide_eq_false fun hcontra => hnp2 (hashFn_inj hcontra)
    unfold resetPassword
    simp only [validateTableName_ok, hv, Bool.not_true, Bool.false_eq_true, if_false,
      findFirstEmail_decomp _ hpre2 hit2e, hprov2, hph2, hbv2]
    rw [if_pos (Or.inr (Or.inr (Or.inl hrt2)))]

/-- Witness for C5 at a concrete one-record store: the token round trip
succeeds, the old password no longer authenticates, and the token is
single-use. -/
theorem reset_round_trip_witness :
    (sendPasswordResetToken TABLE_NAME "a@x.com" "tok" 5 true
      [[("user_id", "id1"), ("username", "alice"), ("password_hash", hashFn "pw1"),
        ("email", "a@x.com")]]).1 = .ok "tok" ∧
    (resetPassword TABLE_NAME "a@x.com" "tok" "pw9" 5 true
      (sendPasswordResetToken TABLE_NAME "a@x.com" "tok" 5 true
        [[("user_id", "id1"), ("username", "alice"), ("password_hash", hashFn "pw1"),
          ("email", "a@x.com")]]).2).1 = .ok () ∧
    (∀ it2 ∈ (resetPassword TABLE_NAME "a@x.com" "tok" "pw9" 5 true
        (sendPasswordResetToken TABLE_NAME "a@x.com" "tok" 5 true
          [[("user_id", "id1"), ("username", "alice"), ("password_hash", hashFn "pw1"),
            ("email", "a@x.com")]]).2).2,
      uidOf it2 = some "id1" →
      getAttr it2 "resetToken" = some "" ∧ getAttr it2 "tokenExpiry" = some "" ∧
      getAttr it2 "password_hash" = some (hashFn "pw9")) ∧
    authenticateUser TABLE_NAME "a@x.com" "pw1"
      (resetPassword TABLE_NAME "a@x.com" "tok" "pw9" 5 true
        (sendPasswordResetToken TABLE_NAME "a@x.com" "tok" 5 true
          [[("user_id", "id1"), ("username", "alice"), ("password_hash", hashFn "pw1"),
            ("email", "a@x.com")]]).2).2 =
      .error ⟨"Authentication Error (Incorrect email or password)", 401⟩ ∧
    (resetPassword TABLE_NAME "a@x.com" "tok" "pw8" 9 true
      (resetPassword TABLE_NAME "a@x.com" "tok" "pw9" 5 true
        (sendPasswordResetToken TABLE_NAME "a@x.com" "tok" 5 true
          [[("user_id", "id1"), ("username", "alice"), ("password_hash", hashFn "pw1"),
            ("email", "a@x.com")]]).2).2).1 = .error ⟨"Invalid Token", 400⟩ :=
  reset_round_trip "a@x.com" "pw1" "pw9" "pw8" "tok" 5 5 9 true [] []
    [("user_id", "id1"), ("username", "alice"), ("password_hash", hashFn "pw1"),
     ("email", "a@x.com")] "id1"
    (by decide) (by intro o ho; exact absurd ho (List.not_mem_nil o))
    (by intro o ho; exact absurd ho (List.not_mem_nil o)) rfl rfl rfl rfl
    (by decide) (by decide) (by decide) (by decide)

end UserData
